import Mathlib

/-
Verification of the BranchBQOperator plugin (bq_branch/plugins/bq_branch.py).

The operator runs a SQL query, takes the first result row, and decides a
branch: `pass_task` when the row is present, non-empty and every value is
truthy under Python bool() coercion, otherwise `fail_task`.  It then skips
every downstream task whose task_id differs from the chosen branch,
issuing the skip call only when the downstream list is non-empty.
-/

namespace BqBranch

/-- Scalar (or collection) value of a BigQuery result row, as seen by
Python.  The constructors cover the falsy cases enumerated in the
operator docstring: None, False, 0, empty string, empty list. -/
inductive Value : Type where
  | null : Value
  | boolean : Bool → Value
  | intVal : Int → Value
  | strVal : String → Value
  | listVal : List Value → Value

/-- Python `bool(r)` coercion: None, False, 0, "" and [] coerce to false,
everything else to true.  This is the `bool(r)` on line 115 of
bq_branch.py. -/
def truthy : Value → Bool
  | Value.null => false
  | Value.boolean b => b
  | Value.intVal n => n != 0
  | Value.strVal s => s != ""
  | Value.listVal vs => !vs.isEmpty

/-- A downstream task, identified by its task_id (all the operator ever
reads from a task object). -/
structure Task where
  task_id : String
deriving DecidableEq

/-- Lines 111-118 of bq_branch.py: `branch_to_follow` starts as
`pass_task`; `if not records` (row absent, or present but empty) it
becomes `fail_task`; `elif not all([bool(r) for r in records])` it also
becomes `fail_task`. -/
def branch_to_follow (records : Option (List Value))
    (pass_task fail_task : String) : String :=
  match records with
  | Option.none => fail_task
  | Option.some rs =>
      if rs.isEmpty then fail_task
      else if !(rs.all (fun r => truthy r)) then fail_task
      else pass_task

/-- Line 122 of bq_branch.py:
`skip_tasks = [t for t in downstream_tasks if t.task_id != branch_to_follow]`. -/
def skip_tasks (downstream_tasks : List Task) (branch : String) : List Task :=
  downstream_tasks.filter (fun t => t.task_id != branch)

/-- The observable outcome of `BranchBQOperator.execute` once the query
result `records` is given: the chosen branch, and the argument of the
skip call (`Option.none` when no skip call is issued, which lines
123-124 guard with `if downstream_tasks`). -/
def execute (records : Option (List Value)) (pass_task fail_task : String)
    (downstream_tasks : List Task) : String × Option (List Task) :=
  let branch := branch_to_follow records pass_task fail_task
  (branch,
    if downstream_tasks.isEmpty then Option.none
    else Option.some (skip_tasks downstream_tasks branch))

/-- The operator state assembled by `BranchBQOperator.__init__`
(lines 84-101): the six configuration fields it stores on `self`. -/
structure BranchBQOperator where
  bigquery_conn_id : String
  sql : Option String
  pass_task : Option String
  fail_task : Option String
  delegate_to : Option String
  use_legacy_sql : Bool
deriving DecidableEq

/-- `BranchBQOperator.__init__` (lines 84-101): it performs no
validation and cannot fail, it only stores its arguments.  The `Except`
result records the absence of any raised configuration error. -/
def branchBQOperatorInit (sql : Option String) (pass_task : Option String)
    (fail_task : Option String) (use_legacy_sql : Bool)
    (bigquery_conn_id : String) (delegate_to : Option String) :
    Except String BranchBQOperator :=
  Except.ok
    { bigquery_conn_id := bigquery_conn_id
      sql := sql
      pass_task := pass_task
      fail_task := fail_task
      delegate_to := delegate_to
      use_legacy_sql := use_legacy_sql }

/-- C1: for every non-empty result row whose values all coerce to true,
the branch decision computed by execute is pass_task. -/
theorem execute_all_truthy_pass (rs : List Value) (pass_task fail_task : String)
    (downstream_tasks : List Task) (hne : rs ≠ [])
    (hall : rs.all (fun r => truthy r) = true) :
    (execute (Option.some rs) pass_task fail_task downstream_tasks).fst
      = pass_task := by
  simp [execute, branch_to_follow, List.isEmpty_iff, hne, hall]

/-- Witness for C1 at the spec's example row [3]. -/
theorem execute_all_truthy_pass_witness :
    ([Value.intVal 3] ≠ ([] : List Value)) ∧
    ([Value.intVal 3].all (fun r => truthy r) = true) ∧
    (execute (Option.some [Value.intVal 3]) "pass_task" "fail_task" []).fst
      = "pass_task" :=
  ⟨by simp, rfl,
    execute_all_truthy_pass [Value.intVal 3] "pass_task" "fail_task" []
      (by simp) rfl⟩

/-- C2: for every result row containing at least one value coercing to
false, the branch decision computed by execute is fail_task. -/
theorem execute_falsy_fail (rs : List Value) (v : Value)
    (pass_task fail_task : String) (downstream_tasks : List Task)
    (hv : v ∈ rs) (hfalse : truthy v = false) :
    (execute (Option.some rs) pass_task fail_task downstream_tasks).fst
      = fail_task := by
  have hne : rs ≠ [] := List.ne_nil_of_mem hv
  have hall : rs.all (fun r => truthy r) = false := by
    rw [← Bool.not_eq_true, List.all_eq_true]
    intro h
    exact absurd (h v hv) (by simp [hfalse])
  simp [execute, branch_to_follow, List.isEmpty_iff, hne, hall]

/-- Witness for C2 at the spec's example row [1, ""]. -/
theorem execute_falsy_fail_witness :
    (Value.strVal "" ∈ [Value.intVal 1, Value.strVal ""]) ∧
    (truthy (Value.strVal "") = false) ∧
    (execute (Option.some [Value.intVal 1, Value.strVal ""])
        "pass_task" "fail_task" []).fst = "fail_task" :=
  ⟨List.Mem.tail _ (List.Mem.head _), rfl,
    execute_falsy_fail [Value.intVal 1, Value.strVal ""] (Value.strVal "")
      "pass_task" "fail_task" [] (List.Mem.tail _ (List.Mem.head _)) rfl⟩

/-- C3: when the query returns no row at all, or a row with zero
columns, execute still produces a decision (the embedding is a total
function, no error path exists) and that decision is fail_task. -/
theorem execute_absent_or_empty_fail (pass_task fail_task : String)
    (downstream_tasks : List Task) :
    (execute Option.none pass_task fail_task downstream_tasks).fst
        = fail_task ∧
    (execute (Option.some []) pass_task fail_task downstream_tasks).fst
        = fail_task :=
  ⟨rfl, rfl⟩

/-- C4: for every downstream list and every decision, the skip list
computed by execute holds exactly the downstream tasks whose task_id
differs from the decision. -/
theorem skip_tasks_mem_iff (downstream_tasks : List Task)
    (decision : String) (t : Task) :
    t ∈ skip_tasks downstream_tasks decision ↔
      (t ∈ downstream_tasks ∧ t.task_id ≠ decision) := by
  simp [skip_tasks, List.mem_filter]

/-- C5: whatever the query result, the branch decision computed by
execute is either pass_task or fail_task, never any other identifier. -/
theorem execute_decision_pass_or_fail (records : Option (List Value))
    (pass_task fail_task : String) (downstream_tasks : List Task) :
    (execute records pass_task fail_task downstream_tasks).fst = pass_task ∨
    (execute records pass_task fail_task downstream_tasks).fst = fail_task := by
  cases records with
  | none => exact Or.inr rfl
  | some rs =>
      simp only [execute, branch_to_follow]
      split
      · exact Or.inr rfl
      · split
        · exact Or.inr rfl
        · exact Or.inl rfl

/-- C6: execute issues no skip call exactly when the downstream list is
empty. -/
theorem execute_skip_call_iff_nonempty (records : Option (List Value))
    (pass_task fail_task : String) (downstream_tasks : List Task) :
    (execute records pass_task fail_task downstream_tasks).snd = Option.none
      ↔ downstream_tasks = [] := by
  simp only [execute]
  split <;> rename_i h
  · simp only [List.isEmpty_iff] at h
    simp [h]
  · simp only [List.isEmpty_iff] at h
    simp [h]

/-- C7: the branch decision is a deterministic function of the row and
the configured task identifiers: equal rows yield equal decisions. -/
theorem branch_decision_deterministic (r1 r2 : Option (List Value))
    (pass_task fail_task : String) (h : r1 = r2) :
    branch_to_follow r1 pass_task fail_task
      = branch_to_follow r2 pass_task fail_task := by
  rw [h]

/-- Witness for C7: evaluating twice on the row [3] yields the same
decision. -/
theorem branch_decision_deterministic_witness :
    (Option.some [Value.intVal 3] = Option.some [Value.intVal 3]) ∧
    branch_to_follow (Option.some [Value.intVal 3]) "pass_task" "fail_task"
      = branch_to_follow (Option.some [Value.intVal 3]) "pass_task" "fail_task" :=
  ⟨rfl, branch_decision_deterministic (Option.some [Value.intVal 3])
    (Option.some [Value.intVal 3]) "pass_task" "fail_task" rfl⟩

/-- C9: the decision depends only on the pointwise truthiness of the
row: two present rows with the same truthiness image get the same
branch. -/
theorem branch_decision_truthiness_only (r1 r2 : List Value)
    (pass_task fail_task : String)
    (h : r1.map truthy = r2.map truthy) :
    branch_to_follow (Option.some r1) pass_task fail_task
      = branch_to_follow (Option.some r2) pass_task fail_task := by
  have hemp : r1.isEmpty = r2.isEmpty := by
    cases r1 <;> cases r2 <;> simp_all
  have hall : ∀ a b : List Value, a.map truthy = b.map truthy →
      a.all (fun r => truthy r) = b.all (fun r => truthy r) := by
    intro a
    induction a with
    | nil => intro b hb; cases b <;> simp_all
    | cons x xs ih =>
        intro b hb
        cases b with
        | nil => simp_all
        | cons y ys =>
            simp only [List.map_cons, List.cons.injEq] at hb
            simp [List.all_cons, hb.1, ih ys hb.2]
  simp only [branch_to_follow, hemp, hall r1 r2 h]

/-- Witness for C9: rows [1] and ["x"] have the same truthiness image
and get the same decision. -/
theorem branch_decision_truthiness_only_witness :
    ([Value.intVal 1].map truthy = [Value.strVal "x"].map truthy) ∧
    branch_to_follow (Option.some [Value.intVal 1]) "pass_task" "fail_task"
      = branch_to_follow (Option.some [Value.strVal "x"]) "pass_task" "fail_task" :=
  ⟨rfl, branch_decision_truthiness_only [Value.intVal 1] [Value.strVal "x"]
    "pass_task" "fail_task" rfl⟩

/-- C10: when the chosen branch's identifier matches no downstream
task_id and the downstream list is non-empty, execute invokes the skip
call with the entire downstream list. -/
theorem execute_skip_all_when_decision_absent (records : Option (List Value))
    (pass_task fail_task : String) (downstream_tasks : List Task)
    (hne : downstream_tasks ≠ [])
    (hnot : ∀ t ∈ downstream_tasks,
      t.task_id ≠ branch_to_follow records pass_task fail_task) :
    (execute records pass_task fail_task downstream_tasks).snd
      = Option.some downstream_tasks := by
  have hfilter : skip_tasks downstream_tasks
      (branch_to_follow records pass_task fail_task) = downstream_tasks := by
    rw [skip_tasks, List.filter_eq_self]
    intro t ht
    simp [hnot t ht]
  simp [execute, List.isEmpty_iff, hne, hfilter]

/-- Witness for C10: downstream task "a", decision fail_task (absent
row), so the skip call carries the whole downstream list. -/
theorem execute_skip_all_when_decision_absent_witness :
    (([Task.mk "a"] : List Task) ≠ []) ∧
    (∀ t ∈ ([Task.mk "a"] : List Task),
      t.task_id ≠ branch_to_follow Option.none "pass_task" "fail_task") ∧
    (execute Option.none "pass_task" "fail_task" [Task.mk "a"]).snd
      = Option.some [Task.mk "a"] :=
  ⟨by simp, by decide,
    execute_skip_all_when_decision_absent Option.none "pass_task" "fail_task"
      [Task.mk "a"] (by simp) (by decide)⟩

/-- C8 counterexample: constructing the operator with sql, pass_task
and fail_task all absent raises no configuration error; __init__ simply
stores the values. -/
theorem init_missing_tasks_no_error :
    (branchBQOperatorInit Option.none Option.none Option.none true
      "bigquery_default" Option.none).isOk = true :=
  rfl

/-- C8 amended: construction never fails; __init__ stores the possibly
absent pass_task and fail_task unvalidated, deferring any
misconfiguration to execution time. -/
theorem init_stores_fields_without_validation (sql pass_task fail_task : Option String)
    (use_legacy_sql : Bool) (bigquery_conn_id : String)
    (delegate_to : Option String) :
    branchBQOperatorInit sql pass_task fail_task use_legacy_sql
        bigquery_conn_id delegate_to
      = Except.ok
          { bigquery_conn_id := bigquery_conn_id
            sql := sql
            pass_task := pass_task
            fail_task := fail_task
            delegate_to := delegate_to
            use_legacy_sql := use_legacy_sql } :=
  rfl

end BqBranch
